import Mathlib

/-!
Verification of `src/cache/readonly.rs`: the `ReadOnlyStorage` guard that
wraps an `Arc<dyn Storage>` and enforces a read-only policy.

Shallow embedding: the `Storage` trait becomes a record of operations over
an abstract backend-state type `σ`.  All trait methods take `&self` in Rust;
the only one whose contract mutates backend state is `put`, which here
returns the successor state alongside its result.  The remaining operations
are reads of the state.  Rust's `anyhow::Result<T>` becomes
`Except Error T`.
-/

/-- The capability mode of a cache, from `crate::cache::CacheMode`
(documented in `readonly.rs`: `ReadOnly` means the cache can only `get`,
`ReadWrite` means it can `get` and `put`). -/
inductive CacheMode where
  | ReadOnly
  | ReadWrite
deriving DecidableEq, Repr

/-- Result of a cache lookup.  Modelled from the spec: `get` returns an
entry, or "not found", or a failure (the concrete `crate::cache::Cache`
enum is outside the provided source). -/
inductive Cache where
  | hit (entry : String)
  | miss
deriving DecidableEq, Repr

/-- An entry payload to write.  Modelled from the spec ("key + entry
payload to write"); its internal structure is irrelevant to the guard,
which never inspects it. -/
abbrev CacheWrite : Type := String

/-- `std::time::Duration`, abstracted to a count of nanoseconds. -/
abbrev Duration : Type := Nat

/-- The error side of `anyhow::Result`.  `readOnlyError` embeds the
`ReadOnlyError` unit struct of `readonly.rs`; `other` embeds every other
error an inner backend may raise, identified by its display message. -/
inductive Error where
  | readOnlyError
  | other (msg : String)
deriving DecidableEq, Repr

/-- The `Display` implementation: `ReadOnlyError` displays as
`"Cannot write to read-only storage"` (from `readonly.rs`); other errors
display their own message. -/
def Error.display : Error → String
  | Error.readOnlyError => "Cannot write to read-only storage"
  | Error.other msg => msg

/-- `anyhow::Result<T>`. -/
abbrev Result (α : Type) : Type := Except Error α

/-- The `Storage` trait (`crate::cache::Storage`), embedded as a record of
operations over a backend-state type `σ`.  `put` is the mutating
operation: it returns its result together with the successor backend
state.  The other operations read the state. -/
structure Storage (σ : Type) where
  get : σ → String → Result Cache
  put : σ → String → CacheWrite → Result Duration × σ
  check : σ → Result CacheMode
  location : σ → String
  current_size : σ → Result (Option Nat)
  max_size : σ → Result (Option Nat)

/-- `ReadOnlyStorage(pub Arc<dyn Storage>)` together with its
`impl Storage for ReadOnlyStorage`, from `readonly.rs`:
`get`, `location`, `current_size` and `max_size` forward to the inner
value `self.0`; `put` ignores its arguments and returns
`Err(ReadOnlyError{}.into())` without touching the inner value (so the
backend state is returned unchanged); `check` returns
`Ok(CacheMode::ReadOnly)` without consulting the inner value. -/
def ReadOnlyStorage {σ : Type} (inner : Storage σ) : Storage σ where
  get s key := inner.get s key
  put s _key _entry := (Except.error Error.readOnlyError, s)
  check _s := Except.ok CacheMode.ReadOnly
  location s := inner.location s
  current_size s := inner.current_size s
  max_size s := inner.max_size s

/-- `n` successive `put` invocations against the same storage, threading
the backend state; returns the list of per-invocation results and the
final state. -/
def iteratePut {σ : Type} (st : Storage σ) (k : String) (e : CacheWrite) :
    Nat → σ → List (Result Duration) × σ
  | 0, s => ([], s)
  | Nat.succ n, s =>
    let r := st.put s k e
    let rest := iteratePut st k e n r.2
    (r.1 :: rest.1, rest.2)

/-- A concrete spy backend over a `Nat` state counting write calls: its
`put` increments the counter.  Used to exhibit the "zero write calls"
observation of the spec on a concrete inner value. -/
def spyStorage : Storage Nat where
  get _s _key := Except.ok Cache.miss
  put s _key _entry := (Except.ok (0 : Duration), s + 1)
  check _s := Except.ok CacheMode.ReadWrite
  location _s := "spy"
  current_size s := Except.ok (some s)
  max_size _s := Except.ok (some 1000)

/-- A concrete backend matching the spec's scenario: `current_size = 500`,
`max_size = 1000`, `check = ReadWrite`. -/
def scenarioStorage : Storage Unit where
  get _s _key := Except.ok Cache.miss
  put _s _key _entry := (Except.ok (0 : Duration), ())
  check _s := Except.ok CacheMode.ReadWrite
  location _s := "scenario"
  current_size _s := Except.ok (some 500)
  max_size _s := Except.ok (some 1000)

/-- A concrete backend whose every fallible operation fails, to exhibit
the failure-forwarding cases on a concrete inner value. -/
def failingStorage : Storage Unit where
  get _s _key := Except.error (Error.other "io failure")
  put _s _key _entry := (Except.error (Error.other "io failure"), ())
  check _s := Except.error (Error.other "bad config")
  location _s := "failing"
  current_size _s := Except.error (Error.other "io failure")
  max_size _s := Except.error (Error.other "io failure")

/-- A concrete backend reporting "unsupported/unknown" sizes (`Ok(None)`),
to exhibit the absent-value case on a concrete inner value. -/
def unsizedStorage : Storage Unit where
  get _s _key := Except.ok Cache.miss
  put _s _key _entry := (Except.ok (0 : Duration), ())
  check _s := Except.ok CacheMode.ReadWrite
  location _s := "unsized"
  current_size _s := Except.ok none
  max_size _s := Except.ok none

/-- C1: for every key and entry, `put` on a `ReadOnlyStorage` fails with
the distinct read-only error kind, the backend state is unchanged (no
side effect, no partial write), and the result is the same for every
inner value, so the inner value's `put` is never invoked — in particular
the concrete counting spy records zero write calls. -/
theorem readonly_put_always_fails {σ : Type} (inner : Storage σ)
    (s : σ) (k : String) (e : CacheWrite) :
    (ReadOnlyStorage inner).put s k e = (Except.error Error.readOnlyError, s) ∧
    (∀ τ : Type, ∀ inner2 : Storage τ, ∀ t : σ → τ,
      ((ReadOnlyStorage inner2).put (t s) k e).1 =
        ((ReadOnlyStorage inner).put s k e).1) ∧
    ((ReadOnlyStorage spyStorage).put 0 k e).2 = 0 := by
  exact ⟨rfl, fun _ _ _ => rfl, rfl⟩

/-- C2: `check` on a `ReadOnlyStorage` always succeeds with
`CacheMode.ReadOnly`, for every inner value and backend state — including
inner values whose own `check` would return `ReadWrite` or fail — and the
inner value's `check` is never consulted (the result is the same for
every inner value). -/
theorem readonly_check_always_readonly {σ : Type} (inner : Storage σ) (s : σ) :
    (ReadOnlyStorage inner).check s = Except.ok CacheMode.ReadOnly ∧
    (∀ τ : Type, ∀ inner2 : Storage τ, ∀ t : τ,
      (ReadOnlyStorage inner2).check t = (ReadOnlyStorage inner).check s) ∧
    scenarioStorage.check () = Except.ok CacheMode.ReadWrite ∧
    (ReadOnlyStorage scenarioStorage).check () = Except.ok CacheMode.ReadOnly ∧
    failingStorage.check () = Except.error (Error.other "bad config") ∧
    (ReadOnlyStorage failingStorage).check () = Except.ok CacheMode.ReadOnly := by
  exact ⟨rfl, fun _ _ _ => rfl, rfl, rfl, rfl, rfl⟩

/-- C3: for every key, `get` on a `ReadOnlyStorage` returns exactly the
inner value's `get` result, unchanged, in every case — exhibited on
concrete inner values for the found-entry, not-found and failure cases. -/
theorem readonly_get_forwards {σ : Type} (inner : Storage σ)
    (s : σ) (k : String) :
    (ReadOnlyStorage inner).get s k = inner.get s k ∧
    (ReadOnlyStorage scenarioStorage).get () "missing-key" = Except.ok Cache.miss ∧
    (ReadOnlyStorage failingStorage).get () k =
      Except.error (Error.other "io failure") := by
  exact ⟨rfl, rfl, rfl⟩

/-- C4: invariant over all six operations: the guard never mutates the
backend state (only `put` could, and it leaves the state unchanged), and
every forwarded non-mutating operation (`get`, `location`,
`current_size`, `max_size`) returns exactly what the inner value returns,
unmodified. -/
theorem readonly_invariant {σ : Type} (inner : Storage σ)
    (s : σ) (k : String) (e : CacheWrite) :
    ((ReadOnlyStorage inner).put s k e).2 = s ∧
    (ReadOnlyStorage inner).get s k = inner.get s k ∧
    (ReadOnlyStorage inner).location s = inner.location s ∧
    (ReadOnlyStorage inner).current_size s = inner.current_size s ∧
    (ReadOnlyStorage inner).max_size s = inner.max_size s := by
  exact ⟨rfl, rfl, rfl, rfl, rfl⟩

/-- C5: `current_size` and `max_size` on a `ReadOnlyStorage` return
exactly the inner value's respective results, in all three cases —
exhibited on concrete inner values for the present-size, absent-value
and failure cases. -/
theorem readonly_sizes_forward {σ : Type} (inner : Storage σ) (s : σ) :
    (ReadOnlyStorage inner).current_size s = inner.current_size s ∧
    (ReadOnlyStorage inner).max_size s = inner.max_size s ∧
    (ReadOnlyStorage scenarioStorage).current_size () = Except.ok (some 500) ∧
    (ReadOnlyStorage scenarioStorage).max_size () = Except.ok (some 1000) ∧
    (ReadOnlyStorage unsizedStorage).current_size () = Except.ok none ∧
    (ReadOnlyStorage unsizedStorage).max_size () = Except.ok none ∧
    (ReadOnlyStorage failingStorage).current_size () =
      Except.error (Error.other "io failure") ∧
    (ReadOnlyStorage failingStorage).max_size () =
      Except.error (Error.other "io failure") := by
  exact ⟨rfl, rfl, rfl, rfl, rfl, rfl, rfl, rfl⟩

/-- C6: `location` on a `ReadOnlyStorage` returns exactly the inner
value's location descriptor, unchanged; its type `σ → String` has no
failure path, so it always returns a descriptor and never an error. -/
theorem readonly_location_forwards {σ : Type} (inner : Storage σ) (s : σ) :
    (ReadOnlyStorage inner).location s = inner.location s := by
  rfl

/-- C7: the error produced by `put` on a `ReadOnlyStorage` is the
dedicated `readOnlyError` kind whose display message is the specific
string "Cannot write to read-only storage" (not a generic I/O failure),
and the error value is the same for every inner value and state, so it
carries no inner-backend detail. -/
theorem readonly_put_error_message {σ : Type} (inner : Storage σ)
    (s : σ) (k : String) (e : CacheWrite) :
    ((ReadOnlyStorage inner).put s k e).1 = Except.error Error.readOnlyError ∧
    Error.display Error.readOnlyError = "Cannot write to read-only storage" ∧
    Error.readOnlyError ≠ Error.other "io failure" ∧
    (∀ τ : Type, ∀ inner2 : Storage τ, ∀ t : τ, ∀ k2 : String, ∀ e2 : CacheWrite,
      ((ReadOnlyStorage inner2).put t k2 e2).1 =
        ((ReadOnlyStorage inner).put s k e).1) := by
  refine ⟨rfl, rfl, by decide, fun _ _ _ _ _ => rfl⟩

/-- C8: idempotence of rejection: for any number `n` of repeated `put`
invocations against the same `ReadOnlyStorage`, every invocation fails
with the read-only error and the backend state after the `n` invocations
is identical to the state before them. -/
theorem readonly_put_idempotent {σ : Type} (inner : Storage σ)
    (s : σ) (k : String) (e : CacheWrite) (n : Nat) :
    (iteratePut (ReadOnlyStorage inner) k e n s).2 = s ∧
    ∀ r ∈ (iteratePut (ReadOnlyStorage inner) k e n s).1,
      r = Except.error Error.readOnlyError := by
  induction n generalizing s with
  | zero => exact ⟨rfl, by intro r hr; cases hr⟩
  | succ m ih =>
    refine ⟨(ih s).1, ?_⟩
    intro r hr
    simp only [iteratePut, ReadOnlyStorage, List.mem_cons] at hr
    rcases hr with h | h
    · exact h
    · exact (ih s).2 r h

/-- C9: `get` on a `ReadOnlyStorage` imposes no precondition on the key:
it forwards every key verbatim to the inner value, with no validation —
in particular the empty key is forwarded like any other. -/
theorem readonly_get_no_key_precondition {σ : Type} (inner : Storage σ)
    (s : σ) :
    (∀ k : String, (ReadOnlyStorage inner).get s k = inner.get s k) ∧
    (ReadOnlyStorage inner).get s "" = inner.get s "" := by
  exact ⟨fun _ => rfl, rfl⟩

/-- C10: the results of `put` and `check` on a `ReadOnlyStorage` are
independent of all inputs and of the inner value and its state: for any
two keys, entries, inner values and states, the two `put` results are
the same read-only error and the two `check` results are the same
`ReadOnly` mode. -/
theorem readonly_put_check_noninterference
    {σ τ : Type} (inner1 : Storage σ) (inner2 : Storage τ)
    (s1 : σ) (s2 : τ) (k1 k2 : String) (e1 e2 : CacheWrite) :
    ((ReadOnlyStorage inner1).put s1 k1 e1).1 =
      ((ReadOnlyStorage inner2).put s2 k2 e2).1 ∧
    ((ReadOnlyStorage inner1).put s1 k1 e1).1 =
      Except.error Error.readOnlyError ∧
    (ReadOnlyStorage inner1).check s1 = (ReadOnlyStorage inner2).check s2 ∧
    (ReadOnlyStorage inner1).check s1 = Except.ok CacheMode.ReadOnly := by
  exact ⟨rfl, rfl, rfl, rfl⟩
